import Mathlib

/-!
Verification development for the voice-authentication pipeline
(`microphone/input/record.py`, `microphone/input/verify.py`,
`microphone/input/audio_input.py`).

Floating-point arithmetic is embedded as real arithmetic; numpy arrays of
fixed length are embedded as functions `Fin n → ℝ`; Python dicts produced by
the feature extractor and the profile aggregator are embedded as structures
whose fields correspond to the dict keys that the code reads and writes.
-/

namespace VoiceAuth

/-! ## Vector helpers (numpy / scipy primitives used by `verify.py`) -/

/-- Dot product of two fixed-length vectors (`np.dot`). -/
def dotv {n : ℕ} (a b : Fin n → ℝ) : ℝ := ∑ i, a i * b i

/-- Sum of squares of a vector. -/
def sumSq {n : ℕ} (a : Fin n → ℝ) : ℝ := ∑ i, (a i) ^ 2

/-- Euclidean norm (`np.linalg.norm`). -/
noncomputable def l2norm {n : ℕ} (a : Fin n → ℝ) : ℝ := Real.sqrt (sumSq a)

/-- Euclidean distance (`scipy.spatial.distance.euclidean`). -/
noncomputable def euclDist {n : ℕ} (a b : Fin n → ℝ) : ℝ :=
  Real.sqrt (∑ i, (a i - b i) ^ 2)

/-- Cosine distance (`scipy.spatial.distance.cosine`):
`1 - u·v / (‖u‖‖v‖)`. -/
noncomputable def cosineDist {n : ℕ} (a b : Fin n → ℝ) : ℝ :=
  1 - dotv a b / (l2norm a * l2norm b)

/-! ## Scalar statistics over lists (numpy reductions used by `record.py`) -/

/-- Arithmetic mean of a list (`np.mean`). -/
noncomputable def lmean (l : List ℝ) : ℝ := l.sum / l.length

/-- Population standard deviation (`np.std`). -/
noncomputable def lstd (l : List ℝ) : ℝ :=
  Real.sqrt ((l.map (fun x => (x - lmean l) ^ 2)).sum / l.length)

/-- Sorted copy of a list (`np.sort`, ascending). -/
noncomputable def lsorted (l : List ℝ) : List ℝ := l.insertionSort (· ≤ ·)

/-- Median of a list (`np.median`): middle element of the sorted list, or the
average of the two middle elements for even length. -/
noncomputable def lmedian (l : List ℝ) : ℝ :=
  if l.length % 2 = 1 then (lsorted l).getD (l.length / 2) 0
  else ((lsorted l).getD (l.length / 2 - 1) 0 + (lsorted l).getD (l.length / 2) 0) / 2

/-- Fractional index `(n-1)·p/100` at which `np.percentile` interpolates. -/
noncomputable def pindex (l : List ℝ) (p : ℝ) : ℝ := ((l.length : ℝ) - 1) * p / 100

/-- Percentile with linear interpolation (`np.percentile`, default method):
interpolate the sorted data linearly between the entries at the floor and
the ceiling of the fractional index. -/
noncomputable def lpercentile (l : List ℝ) (p : ℝ) : ℝ :=
  (lsorted l).getD ⌊pindex l p⌋₊ 0 +
    (pindex l p - (⌊pindex l p⌋₊ : ℝ)) *
      ((lsorted l).getD ⌈pindex l p⌉₊ 0 - (lsorted l).getD ⌊pindex l p⌋₊ 0)

/-! ## Feature vectors (`_extract_robust_features`, identical in both files) -/

/-- One extracted feature set: the dict returned by
`_extract_robust_features` (keys in source order).  MFCC vectors have 13
coefficients (`n_mfcc=13`), chroma has 12 pitch classes, tonnetz has 6
dimensions. -/
structure FeatureVector where
  f0_mean : ℝ
  f0_std : ℝ
  voicing_ratio : ℝ
  mfcc_mean : Fin 13 → ℝ
  mfcc_std : Fin 13 → ℝ
  mfcc_delta : Fin 13 → ℝ
  spectral_centroid_mean : ℝ
  spectral_centroid_std : ℝ
  spectral_rolloff_mean : ℝ
  spectral_bandwidth_mean : ℝ
  chroma_mean : Fin 12 → ℝ
  tonnetz_mean : Fin 6 → ℝ
  zcr_mean : ℝ
  zcr_std : ℝ
  rms_mean : ℝ
  rms_std : ℝ
  tempo : ℝ
  audio_duration : ℝ
  audio_rms : ℝ

/-! ## Profile aggregator (`RobustVoiceRecorder._calculate_profile_statistics`) -/

/-- Statistics stored for one scalar feature key `k`: the aggregator writes
`k`, `k_std`, `k_median`, `k_q25`, `k_q75`. -/
@[ext]
structure ScalarStats where
  mean : ℝ
  std : ℝ
  median : ℝ
  q25 : ℝ
  q75 : ℝ

/-- Statistics stored for one vector-valued feature key `k`: the aggregator
writes element-wise `k`, `k_std`, `k_median` (no quartiles for lists). -/
@[ext]
structure VecStats (n : ℕ) where
  mean : Fin n → ℝ
  std : Fin n → ℝ
  median : Fin n → ℝ

/-- Aggregated statistics of one scalar feature across samples. -/
noncomputable def scalarStats (values : List ℝ) : ScalarStats where
  mean := lmean values
  std := lstd values
  median := lmedian values
  q25 := lpercentile values 25
  q75 := lpercentile values 75

/-- Aggregated element-wise statistics of one vector feature across samples. -/
noncomputable def vecStats {n : ℕ} (values : List (Fin n → ℝ)) : VecStats n where
  mean := fun i => lmean (values.map (fun v => v i))
  std := fun i => lstd (values.map (fun v => v i))
  median := fun i => lmedian (values.map (fun v => v i))

/-- The statistical profile dict built by `_calculate_profile_statistics`:
one `ScalarStats` (resp. `VecStats`) per feature key of the extractor. -/
@[ext]
structure ProfileFeatures where
  f0_mean : ScalarStats
  f0_std : ScalarStats
  voicing_ratio : ScalarStats
  mfcc_mean : VecStats 13
  mfcc_std : VecStats 13
  mfcc_delta : VecStats 13
  spectral_centroid_mean : ScalarStats
  spectral_centroid_std : ScalarStats
  spectral_rolloff_mean : ScalarStats
  spectral_bandwidth_mean : ScalarStats
  chroma_mean : VecStats 12
  tonnetz_mean : VecStats 6
  zcr_mean : ScalarStats
  zcr_std : ScalarStats
  rms_mean : ScalarStats
  rms_std : ScalarStats
  tempo : ScalarStats
  audio_duration : ScalarStats
  audio_rms : ScalarStats

/-- `RobustVoiceRecorder._calculate_profile_statistics`: per feature key,
scalar keys get mean/std/median/q25/q75 over the samples, vector keys get
element-wise mean/std/median. -/
noncomputable def calculateProfileStatistics (samples : List FeatureVector) : ProfileFeatures where
  f0_mean := scalarStats (samples.map FeatureVector.f0_mean)
  f0_std := scalarStats (samples.map FeatureVector.f0_std)
  voicing_ratio := scalarStats (samples.map FeatureVector.voicing_ratio)
  mfcc_mean := vecStats (samples.map FeatureVector.mfcc_mean)
  mfcc_std := vecStats (samples.map FeatureVector.mfcc_std)
  mfcc_delta := vecStats (samples.map FeatureVector.mfcc_delta)
  spectral_centroid_mean := scalarStats (samples.map FeatureVector.spectral_centroid_mean)
  spectral_centroid_std := scalarStats (samples.map FeatureVector.spectral_centroid_std)
  spectral_rolloff_mean := scalarStats (samples.map FeatureVector.spectral_rolloff_mean)
  spectral_bandwidth_mean := scalarStats (samples.map FeatureVector.spectral_bandwidth_mean)
  chroma_mean := vecStats (samples.map FeatureVector.chroma_mean)
  tonnetz_mean := vecStats (samples.map FeatureVector.tonnetz_mean)
  zcr_mean := scalarStats (samples.map FeatureVector.zcr_mean)
  zcr_std := scalarStats (samples.map FeatureVector.zcr_std)
  rms_mean := scalarStats (samples.map FeatureVector.rms_mean)
  rms_std := scalarStats (samples.map FeatureVector.rms_std)
  tempo := scalarStats (samples.map FeatureVector.tempo)
  audio_duration := scalarStats (samples.map FeatureVector.audio_duration)
  audio_rms := scalarStats (samples.map FeatureVector.audio_rms)

/-! ## Similarity engine (`RobustVoiceVerifier._calculate_multi_metric_similarity`) -/

/-- The six per-metric similarity scores. -/
structure Similarities where
  mfcc_score : ℝ
  f0_score : ℝ
  spectral_score : ℝ
  chroma_score : ℝ
  temporal_score : ℝ
  voicing_score : ℝ

/-- The literal `1e-6` guard used throughout `verify.py`. -/
noncomputable def eps6 : ℝ := 1 / 1000000

/-- The literal `1e-8` guard used in the MFCC euclidean normalisation. -/
noncomputable def eps8 : ℝ := 1 / 100000000

/-- Shared body of the spectral / temporal per-feature score:
`relative_diff = |c-p| / (|p| + 1e-6)`,
`z = relative_diff / (σ/|p| + 1e-6)`, `score = max 0 (1 - z/k)`
(with `k = 3` for spectral and `k = 2` for temporal features). -/
noncomputable def bandScore (k c p σ : ℝ) : ℝ :=
  max 0 (1 - (|c - p| / (|p| + eps6)) / (σ / |p| + eps6) / k)

/-- Spectral per-feature scores: a score is appended only when the profile
value is nonzero (`if profile_val != 0`), for the three keys
`spectral_centroid_mean`, `spectral_rolloff_mean`, `spectral_bandwidth_mean`.
The aggregated profile always carries the matching `_std` keys. -/
noncomputable def spectralScores (cur : FeatureVector) (prof : ProfileFeatures) : List ℝ :=
  (if prof.spectral_centroid_mean.mean ≠ 0 then
    [bandScore 3 cur.spectral_centroid_mean prof.spectral_centroid_mean.mean
      prof.spectral_centroid_mean.std] else []) ++
  (if prof.spectral_rolloff_mean.mean ≠ 0 then
    [bandScore 3 cur.spectral_rolloff_mean prof.spectral_rolloff_mean.mean
      prof.spectral_rolloff_mean.std] else []) ++
  (if prof.spectral_bandwidth_mean.mean ≠ 0 then
    [bandScore 3 cur.spectral_bandwidth_mean prof.spectral_bandwidth_mean.mean
      prof.spectral_bandwidth_mean.std] else [])

/-- Temporal per-feature scores for the keys `zcr_mean`, `rms_mean`, `tempo`,
with `z/2` instead of `z/3`. -/
noncomputable def temporalScores (cur : FeatureVector) (prof : ProfileFeatures) : List ℝ :=
  (if prof.zcr_mean.mean ≠ 0 then
    [bandScore 2 cur.zcr_mean prof.zcr_mean.mean prof.zcr_mean.std] else []) ++
  (if prof.rms_mean.mean ≠ 0 then
    [bandScore 2 cur.rms_mean prof.rms_mean.mean prof.rms_mean.std] else []) ++
  (if prof.tempo.mean ≠ 0 then
    [bandScore 2 cur.tempo prof.tempo.mean prof.tempo.std] else [])

/-- Section 1 of `_calculate_multi_metric_similarity`: combined MFCC score,
`(mfcc_cosine + (1 - mfcc_euclidean)) / 2` with
`mfcc_cosine = 1 - cosine(current, profile)` and
`mfcc_euclidean = euclidean(current, profile) / (‖current‖ + ‖profile‖ + 1e-8)`. -/
noncomputable def mfccScoreOf (cur : FeatureVector) (prof : ProfileFeatures) : ℝ :=
  ((1 - cosineDist cur.mfcc_mean prof.mfcc_mean.mean) +
    (1 - euclDist cur.mfcc_mean prof.mfcc_mean.mean /
      (l2norm cur.mfcc_mean + l2norm prof.mfcc_mean.mean + eps8))) / 2

/-- Section 2: fundamental-frequency score.  The aggregated profile always
carries the `f0_mean_std` key, so the `20.0` fallback never fires. -/
noncomputable def f0ScoreOf (cur : FeatureVector) (prof : ProfileFeatures) : ℝ :=
  if 0 < cur.f0_mean ∧ 0 < prof.f0_mean.mean then
    max 0 (1 - (|cur.f0_mean - prof.f0_mean.mean| / (prof.f0_mean.std + eps6)) / 3)
  else 1 / 2

/-- Section 3: mean of the collected spectral scores, `0.5` when none was
collected. -/
noncomputable def spectralScoreOf (cur : FeatureVector) (prof : ProfileFeatures) : ℝ :=
  if spectralScores cur prof = [] then 1 / 2
  else (spectralScores cur prof).sum / (spectralScores cur prof).length

/-- Section 4: chroma score, `1 - cosine(current_chroma, profile_chroma)`
(both sides always carry the `chroma_mean` key). -/
noncomputable def chromaScoreOf (cur : FeatureVector) (prof : ProfileFeatures) : ℝ :=
  1 - cosineDist cur.chroma_mean prof.chroma_mean.mean

/-- Section 5: mean of the collected temporal scores, `0.5` when none was
collected. -/
noncomputable def temporalScoreOf (cur : FeatureVector) (prof : ProfileFeatures) : ℝ :=
  if temporalScores cur prof = [] then 1 / 2
  else (temporalScores cur prof).sum / (temporalScores cur prof).length

/-- Section 6: voice-activity score `max 0 (1 - voicing_diff * 2)`. -/
noncomputable def voicingScoreOf (cur : FeatureVector) (prof : ProfileFeatures) : ℝ :=
  max 0 (1 - |cur.voicing_ratio - prof.voicing_ratio.mean| * 2)

/-- `RobustVoiceVerifier._calculate_multi_metric_similarity`. -/
noncomputable def calculateMultiMetricSimilarity
    (cur : FeatureVector) (prof : ProfileFeatures) : Similarities where
  mfcc_score := mfccScoreOf cur prof
  f0_score := f0ScoreOf cur prof
  spectral_score := spectralScoreOf cur prof
  chroma_score := chromaScoreOf cur prof
  temporal_score := temporalScoreOf cur prof
  voicing_score := voicingScoreOf cur prof

/-- `RobustVoiceVerifier._calculate_composite_score`: fixed weighted sum,
weights mfcc 0.40, f0 0.20, spectral 0.15, temporal 0.15, chroma 0.05,
voicing 0.05. -/
noncomputable def calculateCompositeScore (s : Similarities) : ℝ :=
  s.mfcc_score * (40 / 100) + s.f0_score * (20 / 100) + s.spectral_score * (15 / 100) +
    s.temporal_score * (15 / 100) + s.chroma_score * (5 / 100) + s.voicing_score * (5 / 100)

/-! ## Decision logic (`RobustVoiceVerifier.verify_speaker`, lines 474-502) -/

/-- Confidence tiers of a verification result. -/
inductive Confidence where
  | high
  | medium
  | low
  | reject
deriving DecidableEq

/-- Tiering in `verify_speaker`: `high` above 0.8, `medium` above 0.65,
`low` above 0.5, otherwise `reject`. -/
noncomputable def confidenceLevel (composite : ℝ) : Confidence :=
  if composite > 8 / 10 then .high
  else if composite > 65 / 100 then .medium
  else if composite > 1 / 2 then .low
  else .reject

/-- The decision fields of the result dict built by `verify_speaker`:
`is_verified = composite_score > 0.5`, tiered confidence level, and
`distance = 1 - composite_score`. -/
noncomputable def verifyDecision (composite : ℝ) : Bool × Confidence × ℝ :=
  (decide (composite > 1 / 2), confidenceLevel composite, 1 - composite)

/-! ## Adaptive threshold (`RobustVoiceVerifier._adaptive_threshold`) -/

/-- The fixed `confidence_levels` ladder from `RobustVoiceVerifier.__init__`. -/
noncomputable def fixedLadder : Confidence → ℝ
  | .high => 15 / 100
  | .medium => 25 / 100
  | .low => 40 / 100
  | .reject => 55 / 100

/-- The accumulated `threshold_adjustment`: the sample-count clause
(−0.05 if `sample_count ≥ 5`, else +0.01 if `sample_count < 3`) and the
key-metric clause (−0.05 if `mfcc_score > 0.6 and f0_score > 0.5`, else
+0.01 if `mfcc_score < 0.2 or f0_score < 0.1`) are added in sequence onto
an adjustment that starts at 0. -/
noncomputable def thresholdAdjustment (sample_count : ℕ) (s : Similarities) : ℝ :=
  (if 5 ≤ sample_count then -(5 / 100) else if sample_count < 3 then 1 / 100 else 0) +
  (if s.mfcc_score > 6 / 10 ∧ s.f0_score > 1 / 2 then -(5 / 100)
   else if s.mfcc_score < 2 / 10 ∨ s.f0_score < 1 / 10 then 1 / 100 else 0)

/-- The `adaptive_thresholds` dict: every tier of the fixed ladder shifted
by the accumulated adjustment. -/
noncomputable def adaptiveLadder (sample_count : ℕ) (s : Similarities) :
    Confidence → ℝ :=
  fun c => fixedLadder c + thresholdAdjustment sample_count s

/-- Tier selection of `_adaptive_threshold`: compare the distance
`1 - composite` against the shifted ladder, most confident tier first. -/
noncomputable def adaptiveThresholdDecision (sample_count : ℕ) (s : Similarities)
    (composite : ℝ) : Confidence × ℝ :=
  let distance := 1 - composite
  if distance ≤ adaptiveLadder sample_count s .high then (.high, distance)
  else if distance ≤ adaptiveLadder sample_count s .medium then (.medium, distance)
  else if distance ≤ adaptiveLadder sample_count s .low then (.low, distance)
  else (.reject, distance)

/-! ## Voice activity detection (`_detect_voice_activity`, both files)

With `target_sr = 16000`: 25 ms frames of length 400, 10 ms hop of 160.
`librosa.feature.rms` (default `center=True`) zero-pads the signal by
`frame_length // 2` on both sides and emits one RMS value per frame. -/

/-- Frame length `int(0.025 * 16000)`. -/
def frameLength : ℕ := 400

/-- Hop length `int(0.010 * 16000)`. -/
def hopLength : ℕ := 160

/-- Zero padding applied by `librosa.feature.rms` with `center=True`. -/
def paddedSignal (y : List ℝ) : List ℝ :=
  List.replicate (frameLength / 2) 0 ++ y ++ List.replicate (frameLength / 2) 0

/-- Number of frames emitted by `librosa.feature.rms`. -/
def numFrames (y : List ℝ) : ℕ :=
  ((paddedSignal y).length - frameLength) / hopLength + 1

/-- RMS energy of frame `i`: root of the mean square over the frame. -/
noncomputable def frameRMS (y : List ℝ) (i : ℕ) : ℝ :=
  Real.sqrt (((((paddedSignal y).drop (i * hopLength)).take frameLength).map
    (fun x => x ^ 2)).sum / frameLength)

/-- The per-frame RMS sequence `rms`. -/
noncomputable def rmsFrames (y : List ℝ) : List ℝ :=
  (List.range (numFrames y)).map (frameRMS y)

/-- `rms_threshold = np.percentile(rms, 70)`. -/
noncomputable def rmsThreshold (y : List ℝ) : ℝ := lpercentile (rmsFrames y) 70

/-- `speech_ratio = np.mean(voice_frames)` where
`voice_frames = rms > rms_threshold`. -/
noncomputable def speech_ratio (y : List ℝ) : ℝ :=
  ((rmsFrames y).countP (fun r => decide (rmsThreshold y < r)) : ℝ) / (rmsFrames y).length

/-- The RMS values of the voiced frames, `rms[voice_frames]`. -/
noncomputable def voicedRMS (y : List ℝ) : List ℝ :=
  (rmsFrames y).filter (fun r => decide (rmsThreshold y < r))

/-- The RMS values of the unvoiced frames, `rms[~voice_frames]`. -/
noncomputable def unvoicedRMS (y : List ℝ) : List ℝ :=
  (rmsFrames y).filter (fun r => decide (¬ rmsThreshold y < r))

/-- SNR estimate in dB: mean squared voiced energy over mean squared unvoiced
energy (plus `1e-10`), or 0 when no frame is voiced. -/
noncomputable def snrDb (y : List ℝ) : ℝ :=
  if 0 < (voicedRMS y).length then
    10 * Real.logb 10 ((((voicedRMS y).map (fun r => r ^ 2)).sum / (voicedRMS y).length) /
      (((unvoicedRMS y).map (fun r => r ^ 2)).sum / (unvoicedRMS y).length + 1 / 10000000000))
  else 0

/-- Clip duration in seconds, `len(audio_data) / target_sr`. -/
noncomputable def clipDuration (y : List ℝ) : ℝ := (y.length : ℝ) / 16000

/-- The recorder default `max_silence_ratio = 1.0`
(`RobustVoiceRecorder.__init__`). -/
noncomputable def max_silence_ratio : ℝ := 1

/-- `is_good_quality` of the verifier path (`verify.py`):
`speech_ratio >= 0.1 and snr_db >= 2 and duration >= 1.0`. -/
def isGoodQualityVerify (y : List ℝ) : Prop :=
  speech_ratio y ≥ 1 / 10 ∧ snrDb y ≥ 2 ∧ clipDuration y ≥ 1

/-- `is_good_quality` of the enrollment path (`record.py`):
`speech_ratio >= (1 - max_silence_ratio) and snr_db >= 5 and duration >= 2.0`. -/
def isGoodQualityRecord (y : List ℝ) : Prop :=
  speech_ratio y ≥ 1 - max_silence_ratio ∧ snrDb y ≥ 5 ∧ clipDuration y ≥ 2

/-! ## `AudioInput.verify_speaker` (`audio_input.py`) -/

/-- The `VoiceRecognition` component as seen by `AudioInput.verify_speaker`:
`verify_voice` returns `(is_verified, similarity)` or raises (`none`). -/
structure VoiceRecognitionComponent where
  verify_voice : List ℝ → String → Option (Bool × ℝ)
  threshold : ℝ

/-- The `AudioInput` fields that `verify_speaker` reads. -/
structure AudioInputState where
  enable_voice_auth : Bool
  voice_recognition : Option VoiceRecognitionComponent
  user_id : String

/-- `AudioInput.verify_speaker`: returns `True` immediately when voice auth
is disabled or the component is missing; otherwise delegates to
`verify_voice`, and returns `False` when that raises. -/
def audioInputVerifySpeaker (st : AudioInputState) (audio : List ℝ) : Bool :=
  if !st.enable_voice_auth || st.voice_recognition.isNone then true
  else
    match st.voice_recognition with
    | none => true
    | some vr =>
      match vr.verify_voice audio st.user_id with
      | some r => r.1
      | none => false

/-! ## Profile persistence (`record.py`) -/

/-- One stored profile entry (`profiles[user_name] = ...`).  The wall-clock
timestamp and the SHA-256 integrity hash are runtime values abstracted away;
the fields the claims touch are kept. -/
structure ProfileEntry where
  features : ProfileFeatures
  sample_count : ℕ
  transcripts : List String
  version : String

/-- Content of the profile store file: user name to profile entry. -/
def ProfileStore : Type := String → Option ProfileEntry

/-- The files `_save_profiles` touches: `voice_profiles.json` and its
`.backup` sibling; `none` means the file does not exist. -/
structure FileSystem where
  dataFile : Option ProfileStore
  backupFile : Option ProfileStore

/-- `RobustVoiceRecorder._save_profiles`: if the data file exists it is
renamed onto the backup file first, then the new store is written.
`writeOk` stands for the `json.dump` write succeeding; a failed write is
caught and reported as `False`, leaving the renamed backup in place. -/
def saveProfilesFS (fs : FileSystem) (profiles : ProfileStore) (writeOk : Bool) :
    Bool × FileSystem :=
  let fs1 := if fs.dataFile.isSome then
    { dataFile := none, backupFile := fs.dataFile } else fs
  if writeOk then (true, { fs1 with dataFile := some profiles })
  else (false, fs1)

/-- `RobustVoiceRecorder._load_profiles`: empty store when the file is
missing. -/
def loadProfilesFS (fs : FileSystem) : ProfileStore :=
  fs.dataFile.getD (fun _ => none)

/-- Tail of `RobustVoiceRecorder.create_voice_profile`, from the point where
the interactive loop has fixed the accepted samples: fewer than 2 valid
samples is reported as failure without touching the store; otherwise the
aggregated profile is merged into the loaded store and saved. -/
noncomputable def createVoiceProfile (fs : FileSystem) (user : String)
    (validSamples : List FeatureVector) (transcripts : List String) (writeOk : Bool) :
    Bool × FileSystem :=
  if validSamples.length < 2 then (false, fs)
  else
    let entry : ProfileEntry :=
      { features := calculateProfileStatistics validSamples
        sample_count := validSamples.length
        transcripts := transcripts
        version := "2.0" }
    let profiles : ProfileStore :=
      fun u => if u = user then some entry else loadProfilesFS fs u
    saveProfilesFS fs profiles writeOk

/-! ## Helper lemmas -/

/-- Indexing with default 0 into a list of zeros yields 0, in or out of
range. -/
lemma getD_all_zero : ∀ (s : List ℝ) (n : ℕ), (∀ x ∈ s, x = 0) → s.getD n 0 = 0
  | [], _, _ => by simp
  | a :: s, 0, h => h a (List.mem_cons_self a s)
  | a :: s, n + 1, h => by
    rw [List.getD_cons_succ]
    exact getD_all_zero s n fun x hx => h x (List.mem_cons_of_mem a hx)

/-- Sorting preserves the all-zero property. -/
lemma lsorted_all_zero {l : List ℝ} (h : ∀ x ∈ l, x = 0) : ∀ x ∈ lsorted l, x = 0 :=
  fun x hx => h x ((List.perm_insertionSort (· ≤ ·) l).subset hx)

/-- Every percentile of an all-zero sample list is 0. -/
lemma lpercentile_all_zero {l : List ℝ} (p : ℝ) (h : ∀ x ∈ l, x = 0) :
    lpercentile l p = 0 := by
  unfold lpercentile
  rw [getD_all_zero _ _ (lsorted_all_zero h), getD_all_zero _ _ (lsorted_all_zero h)]
  ring

/-- Sum of squares is nonnegative. -/
lemma sumSq_nonneg {n : ℕ} (a : Fin n → ℝ) : 0 ≤ sumSq a :=
  Finset.sum_nonneg fun _ _ => sq_nonneg _

/-- Norms are nonnegative. -/
lemma l2norm_nonneg {n : ℕ} (a : Fin n → ℝ) : 0 ≤ l2norm a := Real.sqrt_nonneg _

/-- Euclidean distances are nonnegative. -/
lemma euclDist_nonneg {n : ℕ} (a b : Fin n → ℝ) : 0 ≤ euclDist a b := Real.sqrt_nonneg _

/-- Cauchy-Schwarz, upper side. -/
lemma dotv_le {n : ℕ} (a b : Fin n → ℝ) : dotv a b ≤ l2norm a * l2norm b := by
  unfold dotv l2norm sumSq
  exact Real.sum_mul_le_sqrt_mul_sqrt _ _ _

/-- Cauchy-Schwarz, lower side. -/
lemma neg_dotv_le {n : ℕ} (a b : Fin n → ℝ) : -dotv a b ≤ l2norm a * l2norm b := by
  have h := dotv_le (fun i => -a i) b
  have h1 : dotv (fun i => -a i) b = -dotv a b := by
    unfold dotv
    rw [← Finset.sum_neg_distrib]
    exact Finset.sum_congr rfl fun i _ => by ring
  have h2 : l2norm (fun i => -a i) = l2norm a := by
    unfold l2norm sumSq
    congr 1
    exact Finset.sum_congr rfl fun i _ => by ring
  rw [h1, h2] at h
  exact h

/-- The normalised dot product (cosine similarity) lies in `[-1, 1]`,
division-by-zero included. -/
lemma cos_ratio_bounds {n : ℕ} (a b : Fin n → ℝ) :
    -1 ≤ dotv a b / (l2norm a * l2norm b) ∧ dotv a b / (l2norm a * l2norm b) ≤ 1 := by
  have hden : 0 ≤ l2norm a * l2norm b := mul_nonneg (l2norm_nonneg a) (l2norm_nonneg b)
  rcases eq_or_lt_of_le hden with h | h
  · rw [← h, div_zero]
    norm_num
  · constructor
    · rw [le_div_iff₀ h]
      nlinarith [neg_dotv_le a b]
    · rw [div_le_one h]
      exact dotv_le a b

/-- Triangle-type bound: the euclidean distance is at most the sum of the
norms. -/
lemma euclDist_le_add_norms {n : ℕ} (a b : Fin n → ℝ) :
    euclDist a b ≤ l2norm a + l2norm b := by
  unfold euclDist
  have expand : ∑ i, (a i - b i) ^ 2 = sumSq a - 2 * dotv a b + sumSq b := by
    unfold sumSq dotv
    rw [Finset.mul_sum, ← Finset.sum_sub_distrib, ← Finset.sum_add_distrib]
    exact Finset.sum_congr rfl fun i _ => by ring
  have hsq : ∑ i, (a i - b i) ^ 2 ≤ (l2norm a + l2norm b) ^ 2 := by
    have hna : l2norm a ^ 2 = sumSq a := Real.sq_sqrt (sumSq_nonneg a)
    have hnb : l2norm b ^ 2 = sumSq b := Real.sq_sqrt (sumSq_nonneg b)
    have hcs := neg_dotv_le a b
    rw [expand, add_sq, hna, hnb]
    linarith
  calc Real.sqrt (∑ i, (a i - b i) ^ 2)
      ≤ Real.sqrt ((l2norm a + l2norm b) ^ 2) := Real.sqrt_le_sqrt hsq
    _ = l2norm a + l2norm b :=
        Real.sqrt_sq (add_nonneg (l2norm_nonneg a) (l2norm_nonneg b))

/-- Rewriting `1 - cosine_distance` as the normalised dot product. -/
lemma one_sub_cosineDist {n : ℕ} (a b : Fin n → ℝ) :
    1 - cosineDist a b = dotv a b / (l2norm a * l2norm b) := by
  unfold cosineDist
  ring

/-- The combined MFCC score lies in `[-1/2, 1]`. -/
lemma mfccScoreOf_bounds (cur : FeatureVector) (prof : ProfileFeatures) :
    -(1 / 2) ≤ mfccScoreOf cur prof ∧ mfccScoreOf cur prof ≤ 1 := by
  unfold mfccScoreOf
  rw [one_sub_cosineDist]
  obtain ⟨hc1, hc2⟩ := cos_ratio_bounds cur.mfcc_mean prof.mfcc_mean.mean
  have hden : 0 < l2norm cur.mfcc_mean + l2norm prof.mfcc_mean.mean + eps8 := by
    have h1 := l2norm_nonneg cur.mfcc_mean
    have h2 := l2norm_nonneg prof.mfcc_mean.mean
    unfold eps8
    linarith
  have he1 : 0 ≤ euclDist cur.mfcc_mean prof.mfcc_mean.mean /
      (l2norm cur.mfcc_mean + l2norm prof.mfcc_mean.mean + eps8) :=
    div_nonneg (euclDist_nonneg _ _) hden.le
  have he2 : euclDist cur.mfcc_mean prof.mfcc_mean.mean /
      (l2norm cur.mfcc_mean + l2norm prof.mfcc_mean.mean + eps8) ≤ 1 := by
    rw [div_le_one hden]
    have := euclDist_le_add_norms cur.mfcc_mean prof.mfcc_mean.mean
    unfold eps8
    linarith
  constructor <;> linarith

/-- The chroma score lies in `[-1, 1]`. -/
lemma chromaScoreOf_bounds (cur : FeatureVector) (prof : ProfileFeatures) :
    -1 ≤ chromaScoreOf cur prof ∧ chromaScoreOf cur prof ≤ 1 := by
  unfold chromaScoreOf
  rw [one_sub_cosineDist]
  exact cos_ratio_bounds cur.chroma_mean prof.chroma_mean.mean

/-- A spectral / temporal per-feature score lies in `[0, 1]` whenever the
stored standard deviation is nonnegative. -/
lemma bandScore_bounds (k c p σ : ℝ) (hk : 0 < k) (hσ : 0 ≤ σ) :
    0 ≤ bandScore k c p σ ∧ bandScore k c p σ ≤ 1 := by
  unfold bandScore
  have hp6 : 0 < |p| + eps6 := by
    have := abs_nonneg p
    unfold eps6
    linarith
  have hz : 0 ≤ (|c - p| / (|p| + eps6)) / (σ / |p| + eps6) := by
    apply div_nonneg (div_nonneg (abs_nonneg _) hp6.le)
    have h1 : 0 ≤ σ / |p| := div_nonneg hσ (abs_nonneg p)
    unfold eps6
    linarith
  refine ⟨le_max_left _ _, max_le (by norm_num) ?_⟩
  have : 0 ≤ (|c - p| / (|p| + eps6)) / (σ / |p| + eps6) / k := div_nonneg hz hk.le
  linarith

/-- The mean of a nonempty list of values in `[0, 1]` lies in `[0, 1]`. -/
lemma mean_mem_unit {l : List ℝ} (hne : l ≠ []) (h : ∀ x ∈ l, 0 ≤ x ∧ x ≤ 1) :
    0 ≤ l.sum / l.length ∧ l.sum / l.length ≤ 1 := by
  have hlen : 0 < (l.length : ℝ) := by
    have : l.length ≠ 0 := fun hl => hne (List.length_eq_zero.mp hl)
    have : 0 < l.length := Nat.pos_of_ne_zero this
    exact_mod_cast this
  constructor
  · exact div_nonneg (List.sum_nonneg fun x hx => (h x hx).1) hlen.le
  · rw [div_le_one hlen]
    have := List.sum_le_card_nsmul l 1 fun x hx => (h x hx).2
    simpa using this

/-- The pitch score lies in `[0, 1]` when the stored deviation is
nonnegative. -/
lemma f0ScoreOf_bounds (cur : FeatureVector) (prof : ProfileFeatures)
    (hσ : 0 ≤ prof.f0_mean.std) :
    0 ≤ f0ScoreOf cur prof ∧ f0ScoreOf cur prof ≤ 1 := by
  unfold f0ScoreOf
  split_ifs with h
  · have hz : 0 ≤ |cur.f0_mean - prof.f0_mean.mean| / (prof.f0_mean.std + eps6) / 3 := by
      apply div_nonneg (div_nonneg (abs_nonneg _) _) (by norm_num)
      unfold eps6
      linarith
    exact ⟨le_max_left _ _, max_le (by norm_num) (by linarith)⟩
  · norm_num

/-- Every collected spectral score lies in `[0, 1]` when the stored
deviations are nonnegative. -/
lemma spectralScores_mem (cur : FeatureVector) (prof : ProfileFeatures)
    (h1 : 0 ≤ prof.spectral_centroid_mean.std) (h2 : 0 ≤ prof.spectral_rolloff_mean.std)
    (h3 : 0 ≤ prof.spectral_bandwidth_mean.std) :
    ∀ x ∈ spectralScores cur prof, 0 ≤ x ∧ x ≤ 1 := by
  intro x hx
  unfold spectralScores at hx
  simp only [List.mem_append] at hx
  rcases hx with (hx | hx) | hx
  · split_ifs at hx with hc
    · rw [List.mem_singleton] at hx
      rw [hx]
      exact bandScore_bounds _ _ _ _ (by norm_num) h1
    · simp at hx
  · split_ifs at hx with hc
    · rw [List.mem_singleton] at hx
      rw [hx]
      exact bandScore_bounds _ _ _ _ (by norm_num) h2
    · simp at hx
  · split_ifs at hx with hc
    · rw [List.mem_singleton] at hx
      rw [hx]
      exact bandScore_bounds _ _ _ _ (by norm_num) h3
    · simp at hx

/-- Every collected temporal score lies in `[0, 1]` when the stored
deviations are nonnegative. -/
lemma temporalScores_mem (cur : FeatureVector) (prof : ProfileFeatures)
    (h1 : 0 ≤ prof.zcr_mean.std) (h2 : 0 ≤ prof.rms_mean.std) (h3 : 0 ≤ prof.tempo.std) :
    ∀ x ∈ temporalScores cur prof, 0 ≤ x ∧ x ≤ 1 := by
  intro x hx
  unfold temporalScores at hx
  simp only [List.mem_append] at hx
  rcases hx with (hx | hx) | hx
  · split_ifs at hx with hc
    · rw [List.mem_singleton] at hx
      rw [hx]
      exact bandScore_bounds _ _ _ _ (by norm_num) h1
    · simp at hx
  · split_ifs at hx with hc
    · rw [List.mem_singleton] at hx
      rw [hx]
      exact bandScore_bounds _ _ _ _ (by norm_num) h2
    · simp at hx
  · split_ifs at hx with hc
    · rw [List.mem_singleton] at hx
      rw [hx]
      exact bandScore_bounds _ _ _ _ (by norm_num) h3
    · simp at hx

/-- The spectral score lies in `[0, 1]` when the stored deviations are
nonnegative. -/
lemma spectralScoreOf_bounds (cur : FeatureVector) (prof : ProfileFeatures)
    (h1 : 0 ≤ prof.spectral_centroid_mean.std) (h2 : 0 ≤ prof.spectral_rolloff_mean.std)
    (h3 : 0 ≤ prof.spectral_bandwidth_mean.std) :
    0 ≤ spectralScoreOf cur prof ∧ spectralScoreOf cur prof ≤ 1 := by
  unfold spectralScoreOf
  split_ifs with h
  · norm_num
  · exact mean_mem_unit h (spectralScores_mem cur prof h1 h2 h3)

/-- The temporal score lies in `[0, 1]` when the stored deviations are
nonnegative. -/
lemma temporalScoreOf_bounds (cur : FeatureVector) (prof : ProfileFeatures)
    (h1 : 0 ≤ prof.zcr_mean.std) (h2 : 0 ≤ prof.rms_mean.std) (h3 : 0 ≤ prof.tempo.std) :
    0 ≤ temporalScoreOf cur prof ∧ temporalScoreOf cur prof ≤ 1 := by
  unfold temporalScoreOf
  split_ifs with h
  · norm_num
  · exact mean_mem_unit h (temporalScores_mem cur prof h1 h2 h3)

/-- The voicing score lies in `[0, 1]`. -/
lemma voicingScoreOf_bounds (cur : FeatureVector) (prof : ProfileFeatures) :
    0 ≤ voicingScoreOf cur prof ∧ voicingScoreOf cur prof ≤ 1 := by
  unfold voicingScoreOf
  have := abs_nonneg (cur.voicing_ratio - prof.voicing_ratio.mean)
  exact ⟨le_max_left _ _, max_le (by norm_num) (by linarith)⟩

/-- Means are invariant under permutation of the samples. -/
lemma lmean_perm {l₁ l₂ : List ℝ} (h : l₁.Perm l₂) : lmean l₁ = lmean l₂ := by
  unfold lmean
  rw [h.sum_eq, h.length_eq]

/-- Standard deviations are invariant under permutation of the samples. -/
lemma lstd_perm {l₁ l₂ : List ℝ} (h : l₁.Perm l₂) : lstd l₁ = lstd l₂ := by
  unfold lstd
  rw [lmean_perm h, (h.map fun x => (x - lmean l₂) ^ 2).sum_eq, h.length_eq]

/-- Sorting permuted lists yields the same sorted list. -/
lemma lsorted_perm {l₁ l₂ : List ℝ} (h : l₁.Perm l₂) : lsorted l₁ = lsorted l₂ := by
  unfold lsorted
  exact List.eq_of_perm_of_sorted
    ((List.perm_insertionSort _ l₁).trans (h.trans (List.perm_insertionSort _ l₂).symm))
    (List.sorted_insertionSort _ l₁) (List.sorted_insertionSort _ l₂)

/-- Medians are invariant under permutation of the samples. -/
lemma lmedian_perm {l₁ l₂ : List ℝ} (h : l₁.Perm l₂) : lmedian l₁ = lmedian l₂ := by
  unfold lmedian
  rw [lsorted_perm h, h.length_eq]

/-- Percentiles are invariant under permutation of the samples. -/
lemma lpercentile_perm {l₁ l₂ : List ℝ} (h : l₁.Perm l₂) (p : ℝ) :
    lpercentile l₁ p = lpercentile l₂ p := by
  unfold lpercentile pindex
  rw [lsorted_perm h, h.length_eq]

/-- Scalar aggregation is invariant under permutation of the samples. -/
lemma scalarStats_perm {l₁ l₂ : List ℝ} (h : l₁.Perm l₂) :
    scalarStats l₁ = scalarStats l₂ := by
  unfold scalarStats
  rw [lmean_perm h, lstd_perm h, lmedian_perm h, lpercentile_perm h 25, lpercentile_perm h 75]

/-- Vector aggregation is invariant under permutation of the samples. -/
lemma vecStats_perm {n : ℕ} {v₁ v₂ : List (Fin n → ℝ)} (h : v₁.Perm v₂) :
    vecStats v₁ = vecStats v₂ := by
  unfold vecStats
  simp only [VecStats.mk.injEq]
  refine ⟨funext fun i => ?_, funext fun i => ?_, funext fun i => ?_⟩
  · exact lmean_perm (h.map _)
  · exact lstd_perm (h.map _)
  · exact lmedian_perm (h.map _)

/-- Mean of `n` copies of a value is that value. -/
lemma lmean_replicate (n : ℕ) (x : ℝ) (hn : n ≠ 0) : lmean (List.replicate n x) = x := by
  unfold lmean
  rw [List.sum_replicate, List.length_replicate, nsmul_eq_mul]
  exact mul_div_cancel_left₀ x (Nat.cast_ne_zero.mpr hn)

/-- Standard deviation of `n` copies of a value is zero. -/
lemma lstd_replicate (n : ℕ) (x : ℝ) (hn : n ≠ 0) : lstd (List.replicate n x) = 0 := by
  unfold lstd
  rw [lmean_replicate n x hn, List.map_replicate]
  simp

/-- A vector with a nonzero entry has positive sum of squares. -/
lemma sumSq_pos {n : ℕ} {a : Fin n → ℝ} (h : ∃ i, a i ≠ 0) : 0 < sumSq a := by
  obtain ⟨i, hi⟩ := h
  unfold sumSq
  exact Finset.sum_pos' (fun j _ => sq_nonneg _)
    ⟨i, Finset.mem_univ i, pow_two_pos_of_ne_zero hi⟩

/-- Cosine similarity of a nonzero vector with itself is 1. -/
lemma cos_self {n : ℕ} (a : Fin n → ℝ) (h : 0 < sumSq a) : 1 - cosineDist a a = 1 := by
  rw [one_sub_cosineDist]
  have hd : dotv a a = sumSq a := by
    unfold dotv sumSq
    exact Finset.sum_congr rfl fun i _ => (pow_two (a i)).symm
  rw [hd]
  unfold l2norm
  rw [Real.mul_self_sqrt (sumSq_nonneg a)]
  exact div_self (ne_of_gt h)

/-- Euclidean distance of a vector to itself is 0. -/
lemma euclDist_self {n : ℕ} (a : Fin n → ℝ) : euclDist a a = 0 := by
  unfold euclDist
  simp

/-- A spectral / temporal score of a value against itself is 1. -/
lemma bandScore_self (k x σ : ℝ) : bandScore k x x σ = 1 := by
  unfold bandScore
  simp

/-- Sum of a list of ones is its length. -/
lemma sum_ones {l : List ℝ} (h : ∀ x ∈ l, x = 1) : l.sum = l.length := by
  induction l with
  | nil => simp
  | cons a t ih =>
    rw [List.sum_cons, h a (List.mem_cons_self a t),
      ih fun x hx => h x (List.mem_cons_of_mem a hx)]
    simp
    ring

/-- Mean of a nonempty list of ones is 1. -/
lemma mean_ones {l : List ℝ} (hne : l ≠ []) (h : ∀ x ∈ l, x = 1) :
    l.sum / l.length = 1 := by
  rw [sum_ones h]
  exact div_self (Nat.cast_ne_zero.mpr fun hl => hne (List.length_eq_zero.mp hl))

/-- All six similarity scores of a feature vector against the profile
aggregated from `n ≥ 1` copies of that same vector: every score is 1 except
that the pitch score degrades to the neutral `1/2` when `f0_mean` is not
positive. -/
lemma scores_self (v : FeatureVector) (n : ℕ) (hn : 1 ≤ n)
    (hmfcc : ∃ i, v.mfcc_mean i ≠ 0) (hchroma : ∃ i, v.chroma_mean i ≠ 0)
    (hspec : v.spectral_centroid_mean ≠ 0 ∨ v.spectral_rolloff_mean ≠ 0 ∨
      v.spectral_bandwidth_mean ≠ 0)
    (htemp : v.zcr_mean ≠ 0 ∨ v.rms_mean ≠ 0 ∨ v.tempo ≠ 0) :
    mfccScoreOf v (calculateProfileStatistics (List.replicate n v)) = 1 ∧
    f0ScoreOf v (calculateProfileStatistics (List.replicate n v)) =
      (if 0 < v.f0_mean then 1 else 1 / 2) ∧
    spectralScoreOf v (calculateProfileStatistics (List.replicate n v)) = 1 ∧
    chromaScoreOf v (calculateProfileStatistics (List.replicate n v)) = 1 ∧
    temporalScoreOf v (calculateProfileStatistics (List.replicate n v)) = 1 ∧
    voicingScoreOf v (calculateProfileStatistics (List.replicate n v)) = 1 := by
  have hnz : n ≠ 0 := by omega
  set P := calculateProfileStatistics (List.replicate n v) with hP
  have hsmean : ∀ f : FeatureVector → ℝ,
      (scalarStats ((List.replicate n v).map f)).mean = f v := by
    intro f
    rw [List.map_replicate]
    exact lmean_replicate n (f v) hnz
  have hsstd : ∀ f : FeatureVector → ℝ,
      (scalarStats ((List.replicate n v).map f)).std = 0 := by
    intro f
    rw [List.map_replicate]
    exact lstd_replicate n (f v) hnz
  have hvmean : ∀ {m : ℕ} (g : FeatureVector → Fin m → ℝ),
      (vecStats ((List.replicate n v).map g)).mean = g v := by
    intro m g
    funext i
    show lmean ((((List.replicate n v).map g)).map fun w => w i) = g v i
    rw [List.map_replicate, List.map_replicate]
    exact lmean_replicate n (g v i) hnz
  have hmfcc_mean : P.mfcc_mean.mean = v.mfcc_mean := hvmean _
  have hchroma_mean : P.chroma_mean.mean = v.chroma_mean := hvmean _
  have hsc : P.spectral_centroid_mean.mean = v.spectral_centroid_mean := hsmean _
  have hro : P.spectral_rolloff_mean.mean = v.spectral_rolloff_mean := hsmean _
  have hbw : P.spectral_bandwidth_mean.mean = v.spectral_bandwidth_mean := hsmean _
  have hzc : P.zcr_mean.mean = v.zcr_mean := hsmean _
  have hrm : P.rms_mean.mean = v.rms_mean := hsmean _
  have htp : P.tempo.mean = v.tempo := hsmean _
  have hvr : P.voicing_ratio.mean = v.voicing_ratio := hsmean _
  have hf0m : P.f0_mean.mean = v.f0_mean := hsmean _
  have hf0s : P.f0_mean.std = 0 := hsstd _
  have hspec_all : ∀ x ∈ spectralScores v P, x = 1 := by
    intro x hx
    unfold spectralScores at hx
    rw [hsc, hro, hbw] at hx
    simp only [List.mem_append] at hx
    rcases hx with (hx | hx) | hx
    · split_ifs at hx with hc
      · rw [List.mem_singleton] at hx
        rw [hx]
        exact bandScore_self _ _ _
      · simp at hx
    · split_ifs at hx with hc
      · rw [List.mem_singleton] at hx
        rw [hx]
        exact bandScore_self _ _ _
      · simp at hx
    · split_ifs at hx with hc
      · rw [List.mem_singleton] at hx
        rw [hx]
        exact bandScore_self _ _ _
      · simp at hx
  have htemp_all : ∀ x ∈ temporalScores v P, x = 1 := by
    intro x hx
    unfold temporalScores at hx
    rw [hzc, hrm, htp] at hx
    simp only [List.mem_append] at hx
    rcases hx with (hx | hx) | hx
    · split_ifs at hx with hc
      · rw [List.mem_singleton] at hx
        rw [hx]
        exact bandScore_self _ _ _
      · simp at hx
    · split_ifs at hx with hc
      · rw [List.mem_singleton] at hx
        rw [hx]
        exact bandScore_self _ _ _
      · simp at hx
    · split_ifs at hx with hc
      · rw [List.mem_singleton] at hx
        rw [hx]
        exact bandScore_self _ _ _
      · simp at hx
  have hspec_ne : spectralScores v P ≠ [] := by
    unfold spectralScores
    rw [hsc, hro, hbw]
    rcases hspec with h | h | h <;> simp [h]
  have htemp_ne : temporalScores v P ≠ [] := by
    unfold temporalScores
    rw [hzc, hrm, htp]
    rcases htemp with h | h | h <;> simp [h]
  refine ⟨?_, ?_, ?_, ?_, ?_, ?_⟩
  · unfold mfccScoreOf
    rw [hmfcc_mean, cos_self _ (sumSq_pos hmfcc), euclDist_self]
    simp
  · unfold f0ScoreOf
    rw [hf0m, hf0s]
    by_cases hf : 0 < v.f0_mean
    · rw [if_pos ⟨hf, hf⟩, if_pos hf]
      simp
    · rw [if_neg fun hc => hf hc.1, if_neg hf]
  · unfold spectralScoreOf
    rw [if_neg hspec_ne]
    exact mean_ones hspec_ne hspec_all
  · unfold chromaScoreOf
    rw [hchroma_mean]
    exact cos_self _ (sumSq_pos hchroma)
  · unfold temporalScoreOf
    rw [if_neg htemp_ne]
    exact mean_ones htemp_ne htemp_all
  · unfold voicingScoreOf
    rw [hvr]
    simp

/-- An all-zero feature vector, used as a concrete sample in witnesses. -/
noncomputable def zeroFV : FeatureVector where
  f0_mean := 0
  f0_std := 0
  voicing_ratio := 0
  mfcc_mean := fun _ => 0
  mfcc_std := fun _ => 0
  mfcc_delta := fun _ => 0
  spectral_centroid_mean := 0
  spectral_centroid_std := 0
  spectral_rolloff_mean := 0
  spectral_bandwidth_mean := 0
  chroma_mean := fun _ => 0
  tonnetz_mean := fun _ => 0
  zcr_mean := 0
  zcr_std := 0
  rms_mean := 0
  rms_std := 0
  tempo := 0
  audio_duration := 0
  audio_rms := 0

/-! ## Theorems -/

/-- C6: the profile aggregator produces the same statistical profile on any
permutation of the enrollment samples. -/
theorem c6_aggregator_order_independent (s₁ s₂ : List FeatureVector)
    (hperm : s₁.Perm s₂) (hlen : 2 ≤ s₁.length) :
    calculateProfileStatistics s₁ = calculateProfileStatistics s₂ := by
  unfold calculateProfileStatistics
  simp only [ProfileFeatures.mk.injEq]
  refine ⟨?_, ?_, ?_, ?_, ?_, ?_, ?_, ?_, ?_, ?_, ?_, ?_, ?_, ?_, ?_, ?_, ?_, ?_, ?_⟩ <;>
    first
      | exact scalarStats_perm (hperm.map _)
      | exact vecStats_perm (hperm.map _)

/-- Witness for C6: swapping two concrete enrollment samples leaves the
profile unchanged. -/
theorem c6_aggregator_order_independent_witness :
    ([zeroFV, { zeroFV with f0_mean := 1 }].Perm [{ zeroFV with f0_mean := 1 }, zeroFV] ∧
      2 ≤ [zeroFV, { zeroFV with f0_mean := 1 }].length) ∧
    calculateProfileStatistics [zeroFV, { zeroFV with f0_mean := 1 }] =
      calculateProfileStatistics [{ zeroFV with f0_mean := 1 }, zeroFV] :=
  ⟨⟨List.Perm.swap _ _ _, by norm_num⟩,
    c6_aggregator_order_independent _ _ (List.Perm.swap _ _ _) (by norm_num)⟩

/-- C8: a clip of all-zero samples fails the quality gate on both the
verification path and the enrollment path, with speech ratio exactly 0. -/
theorem c8_zero_clip_rejected (y : List ℝ) (h : ∀ x ∈ y, x = 0) :
    speech_ratio y = 0 ∧ ¬ isGoodQualityVerify y ∧ ¬ isGoodQualityRecord y := by
  have hpad : ∀ x ∈ paddedSignal y, x = 0 := by
    intro x hx
    unfold paddedSignal at hx
    rcases List.mem_append.mp hx with hx | hx
    · rcases List.mem_append.mp hx with hx | hx
      · exact List.eq_of_mem_replicate hx
      · exact h x hx
    · exact List.eq_of_mem_replicate hx
  have hframe : ∀ i, frameRMS y i = 0 := by
    intro i
    unfold frameRMS
    have hz : ∀ x ∈ ((paddedSignal y).drop (i * hopLength)).take frameLength, x = 0 :=
      fun x hx => hpad x (List.drop_subset _ _ (List.take_subset _ _ hx))
    have hsum :
        ((((paddedSignal y).drop (i * hopLength)).take frameLength).map (fun x => x ^ 2)).sum
          = 0 := by
      apply List.sum_eq_zero
      intro z hz2
      rcases List.mem_map.mp hz2 with ⟨x, hx, rfl⟩
      rw [hz x hx]
      norm_num
    rw [hsum]
    simp
  have hrms : ∀ r ∈ rmsFrames y, r = 0 := by
    intro r hr
    rcases List.mem_map.mp hr with ⟨i, _, rfl⟩
    exact hframe i
  have hthr : rmsThreshold y = 0 := by
    unfold rmsThreshold
    exact lpercentile_all_zero 70 hrms
  have hratio : speech_ratio y = 0 := by
    unfold speech_ratio
    have hcount : (rmsFrames y).countP (fun r => decide (rmsThreshold y < r)) = 0 := by
      rw [List.countP_eq_zero]
      intro a ha
      rw [hrms a ha, hthr]
      simp
    rw [hcount]
    simp
  have hsnr : snrDb y = 0 := by
    unfold snrDb
    have hvoiced : voicedRMS y = [] := by
      unfold voicedRMS
      rw [List.filter_eq_nil_iff]
      intro a ha
      rw [hrms a ha, hthr]
      simp
    rw [hvoiced]
    simp
  refine ⟨hratio, ?_, ?_⟩
  · rintro ⟨h1, -, -⟩
    rw [hratio] at h1
    norm_num at h1
  · rintro ⟨-, h2, -⟩
    rw [hsnr] at h2
    norm_num at h2

/-- Witness for C8 at the empty (hence all-zero) clip. -/
theorem c8_zero_clip_rejected_witness :
    (∀ x ∈ ([] : List ℝ), x = 0) ∧
    (speech_ratio [] = 0 ∧ ¬ isGoodQualityVerify [] ∧ ¬ isGoodQualityRecord []) :=
  ⟨by simp, c8_zero_clip_rejected [] (by simp)⟩

/-- C1: for every verification attempt that reaches scoring, the result's
`verified` flag is true exactly when the composite score exceeds the accept
threshold 0.5 of the lowest (`low`) tier, equivalently exactly when the
assigned confidence level is not `reject`. -/
theorem c1_verified_iff_above_low_tier (cur : FeatureVector) (prof : ProfileFeatures) :
    ((verifyDecision (calculateCompositeScore (calculateMultiMetricSimilarity cur prof))).1 = true ↔
      calculateCompositeScore (calculateMultiMetricSimilarity cur prof) > 1 / 2) ∧
    ((verifyDecision (calculateCompositeScore (calculateMultiMetricSimilarity cur prof))).1 = true ↔
      (verifyDecision (calculateCompositeScore (calculateMultiMetricSimilarity cur prof))).2.1 ≠
        Confidence.reject) := by
  set x := calculateCompositeScore (calculateMultiMetricSimilarity cur prof) with hx
  constructor
  · simp [verifyDecision]
  · simp only [verifyDecision, confidenceLevel, decide_eq_true_eq]
    split_ifs with h1 h2 h3 <;> simp <;> linarith

/-- C3: when voice authentication is disabled or the voice-recognition
component is unavailable, `AudioInput.verify_speaker` accepts every audio
input (fail-open). -/
theorem c3_fail_open (st : AudioInputState) (audio : List ℝ)
    (h : st.enable_voice_auth = false ∨ st.voice_recognition = none) :
    audioInputVerifySpeaker st audio = true := by
  unfold audioInputVerifySpeaker
  rcases h with h | h <;> rw [h] <;> simp

/-- Witness for C3 at a concrete disabled configuration. -/
theorem c3_fail_open_witness :
    (AudioInputState.mk false none "alice").enable_voice_auth = false ∧
    audioInputVerifySpeaker (AudioInputState.mk false none "alice") [] = true :=
  ⟨rfl, c3_fail_open (AudioInputState.mk false none "alice") [] (Or.inl rfl)⟩

/-- C4 counterexample: with 5 enrollment samples and strong sub-scores
(mfcc 0.7 > 0.6, f0 0.6 > 0.5), both lenient clauses fire and the ladder is
shifted by −0.10, not by exactly −0.05 as the claim states. -/
theorem c4_counterexample :
    thresholdAdjustment 5
      { mfcc_score := 7 / 10, f0_score := 3 / 5, spectral_score := 0,
        chroma_score := 0, temporal_score := 0, voicing_score := 0 } = -(1 / 10) ∧
    (-(1 / 10) : ℝ) ≠ -(5 / 100) := by
  constructor
  · unfold thresholdAdjustment
    rw [if_pos (le_refl 5), if_pos (by constructor <;> norm_num)]
    norm_num
  · norm_num

/-- C4 amended: the two adjustment clauses accumulate; the ladder is shifted
by the sum of the sample-count term and the sub-score term, so when both
lenient conditions hold the shift is −0.10. -/
theorem c4_adjustments_accumulate (sample_count : ℕ) (s : Similarities) :
    (thresholdAdjustment sample_count s =
      (if 5 ≤ sample_count then -(5 / 100) else if sample_count < 3 then 1 / 100 else 0) +
      (if s.mfcc_score > 6 / 10 ∧ s.f0_score > 1 / 2 then -(5 / 100)
       else if s.mfcc_score < 2 / 10 ∨ s.f0_score < 1 / 10 then 1 / 100 else 0)) ∧
    (∀ c, adaptiveLadder sample_count s c = fixedLadder c + thresholdAdjustment sample_count s) ∧
    (5 ≤ sample_count → s.mfcc_score > 6 / 10 → s.f0_score > 1 / 2 →
      thresholdAdjustment sample_count s = -(1 / 10)) := by
  refine ⟨rfl, fun _ => rfl, fun h5 hm hf => ?_⟩
  unfold thresholdAdjustment
  rw [if_pos h5, if_pos ⟨hm, hf⟩]
  norm_num

/-- Witness for C4's amended statement at a concrete profile and score pair. -/
theorem c4_adjustments_accumulate_witness :
    thresholdAdjustment 6
      { mfcc_score := 1, f0_score := 1, spectral_score := 0,
        chroma_score := 0, temporal_score := 0, voicing_score := 0 } = -(1 / 10) :=
  (c4_adjustments_accumulate 6 _).2.2 (by norm_num) (by norm_num) (by norm_num)

/-- C7: enrollment ending with exactly 1 accepted sample fails and leaves the
store untouched; ending with exactly 2 accepted samples succeeds and persists
a profile for the user. -/
theorem c7_enrollment_sample_counts (fs : FileSystem) (user : String)
    (t : List String) (s s₁ s₂ : FeatureVector) :
    createVoiceProfile fs user [s] t true = (false, fs) ∧
    (createVoiceProfile fs user [s₁, s₂] t true).1 = true ∧
    ∃ P : ProfileStore,
      (createVoiceProfile fs user [s₁, s₂] t true).2.dataFile = some P ∧
      P user = some
        { features := calculateProfileStatistics [s₁, s₂]
          sample_count := 2
          transcripts := t
          version := "2.0" } := by
  refine ⟨by simp [createVoiceProfile], ?_, ?_⟩
  · simp [createVoiceProfile, saveProfilesFS]
  · simp only [createVoiceProfile, saveProfilesFS]
    norm_num

/-- C9: a save renames the existing store file onto the backup before
writing, for every outcome of the write; hence after a second successful
enrollment for the same user the backup holds exactly the store state left
by the first enrollment. -/
theorem c9_backup_before_write (fs₀ : FileSystem) (user : String)
    (s₁ s₂ s₃ s₄ : FeatureVector) (t₁ t₂ : List String) :
    (∀ (fs : FileSystem) (p : ProfileStore) (w : Bool),
      (saveProfilesFS fs p w).2.backupFile =
        if fs.dataFile.isSome then fs.dataFile else fs.backupFile) ∧
    (∀ w : Bool,
      (createVoiceProfile (createVoiceProfile fs₀ user [s₁, s₂] t₁ true).2 user
          [s₃, s₄] t₂ w).2.backupFile =
        (createVoiceProfile fs₀ user [s₁, s₂] t₁ true).2.dataFile) := by
  have hsave : ∀ (fs : FileSystem) (p : ProfileStore) (w : Bool),
      (saveProfilesFS fs p w).2.backupFile =
        if fs.dataFile.isSome then fs.dataFile else fs.backupFile := by
    intro fs p w
    unfold saveProfilesFS
    by_cases h : fs.dataFile.isSome <;> cases w <;> simp [h]
  refine ⟨hsave, fun w => ?_⟩
  set fs₁ := (createVoiceProfile fs₀ user [s₁, s₂] t₁ true).2 with hfs₁
  have hfirst : fs₁.dataFile.isSome := by
    rw [hfs₁]
    simp [createVoiceProfile, saveProfilesFS]
  unfold createVoiceProfile
  rw [if_neg (by simp)]
  show (saveProfilesFS fs₁ _ w).2.backupFile = fs₁.dataFile
  rw [hsave, if_pos hfirst]

/-- C10: with the enrollment recorder's default `max_silence_ratio = 1.0`,
the speech-ratio condition of the enrollment gate holds for every clip, so
the gate's outcome is decided by the SNR and duration conditions alone. -/
theorem c10_enrollment_speech_condition_trivial (y : List ℝ) :
    speech_ratio y ≥ 1 - max_silence_ratio ∧
    (isGoodQualityRecord y ↔ (snrDb y ≥ 5 ∧ clipDuration y ≥ 2)) := by
  have h0 : speech_ratio y ≥ 0 := by
    unfold speech_ratio
    exact div_nonneg (Nat.cast_nonneg _) (Nat.cast_nonneg _)
  have h1 : speech_ratio y ≥ 1 - max_silence_ratio := by
    unfold max_silence_ratio
    linarith
  exact ⟨h1, fun h => ⟨h.2.1, h.2.2⟩, fun h => ⟨h1, h.1, h.2⟩⟩

/-- A degenerate but otherwise well-formed feature vector whose pitch mean is
0 (no voiced frame was found, the extractor's fallback). -/
noncomputable def unvoicedFV : FeatureVector where
  f0_mean := 0
  f0_std := 0
  voicing_ratio := 1 / 2
  mfcc_mean := fun i => if i = 0 then 1 else 0
  mfcc_std := fun _ => 0
  mfcc_delta := fun _ => 0
  spectral_centroid_mean := 1
  spectral_centroid_std := 0
  spectral_rolloff_mean := 1
  spectral_bandwidth_mean := 1
  chroma_mean := fun i => if i = 0 then 1 else 0
  tonnetz_mean := fun _ => 0
  zcr_mean := 1
  zcr_std := 0
  rms_mean := 1
  rms_std := 0
  tempo := 1
  audio_duration := 1
  audio_rms := 1

/-- C5 counterexample: for the vector `unvoicedFV` (pitch mean 0), the
composite score against a profile aggregated from two identical copies of it
is 0.9, below the claimed 0.95, because the pitch metric falls back to the
neutral score 0.5. -/
theorem c5_counterexample :
    calculateCompositeScore (calculateMultiMetricSimilarity unvoicedFV
      (calculateProfileStatistics (List.replicate 2 unvoicedFV))) < 95 / 100 := by
  obtain ⟨hm, hf, hs, hc, ht, hv⟩ :=
    scores_self unvoicedFV 2 (by norm_num)
      ⟨0, by norm_num [unvoicedFV]⟩ ⟨0, by norm_num [unvoicedFV]⟩
      (Or.inl (by norm_num [unvoicedFV])) (Or.inl (by norm_num [unvoicedFV]))
  unfold calculateCompositeScore calculateMultiMetricSimilarity
  dsimp only
  rw [hm, hf, hs, hc, ht, hv]
  rw [if_neg (by norm_num [unvoicedFV] : ¬(0 : ℝ) < unvoicedFV.f0_mean)]
  norm_num

/-- C5 amended: for a non-degenerate feature vector (positive pitch mean,
nonzero MFCC and chroma vectors, at least one nonzero spectral value and one
nonzero temporal value), scoring it against a profile aggregated solely from
copies of that identical vector yields composite score at least 0.95 (in
fact exactly 1). -/
theorem c5_reflexive_nondegenerate (v : FeatureVector) (n : ℕ) (hn : 1 ≤ n)
    (hf0 : 0 < v.f0_mean)
    (hmfcc : ∃ i, v.mfcc_mean i ≠ 0) (hchroma : ∃ i, v.chroma_mean i ≠ 0)
    (hspec : v.spectral_centroid_mean ≠ 0 ∨ v.spectral_rolloff_mean ≠ 0 ∨
      v.spectral_bandwidth_mean ≠ 0)
    (htemp : v.zcr_mean ≠ 0 ∨ v.rms_mean ≠ 0 ∨ v.tempo ≠ 0) :
    95 / 100 ≤ calculateCompositeScore (calculateMultiMetricSimilarity v
      (calculateProfileStatistics (List.replicate n v))) := by
  obtain ⟨hm, hf, hs, hc, ht, hv⟩ := scores_self v n hn hmfcc hchroma hspec htemp
  unfold calculateCompositeScore calculateMultiMetricSimilarity
  dsimp only
  rw [hm, hf, hs, hc, ht, hv, if_pos hf0]
  norm_num

/-- Witness for C5's amended statement at a 150 Hz concrete vector and two
enrollment copies. -/
theorem c5_reflexive_nondegenerate_witness :
    95 / 100 ≤ calculateCompositeScore (calculateMultiMetricSimilarity
      { unvoicedFV with f0_mean := 150 }
      (calculateProfileStatistics
        (List.replicate 2 { unvoicedFV with f0_mean := 150 }))) :=
  c5_reflexive_nondegenerate { unvoicedFV with f0_mean := 150 } 2 (by norm_num)
    (by norm_num [unvoicedFV])
    ⟨0, by norm_num [unvoicedFV]⟩ ⟨0, by norm_num [unvoicedFV]⟩
    (Or.inl (by norm_num [unvoicedFV])) (Or.inl (by norm_num [unvoicedFV]))

/-- C2 amended: for every live feature vector and stored profile whose
standard-deviation entries are nonnegative (true of every aggregated
profile), the composite score lies in `[-1/4, 1]`; the claimed lower bound 0
does not hold. -/
theorem c2_composite_bounds (cur : FeatureVector) (prof : ProfileFeatures)
    (hstd : 0 ≤ prof.f0_mean.std ∧ 0 ≤ prof.spectral_centroid_mean.std ∧
      0 ≤ prof.spectral_rolloff_mean.std ∧ 0 ≤ prof.spectral_bandwidth_mean.std ∧
      0 ≤ prof.zcr_mean.std ∧ 0 ≤ prof.rms_mean.std ∧ 0 ≤ prof.tempo.std) :
    -(1 / 4) ≤ calculateCompositeScore (calculateMultiMetricSimilarity cur prof) ∧
    calculateCompositeScore (calculateMultiMetricSimilarity cur prof) ≤ 1 := by
  obtain ⟨h1, h2, h3, h4, h5, h6, h7⟩ := hstd
  obtain ⟨hm1, hm2⟩ := mfccScoreOf_bounds cur prof
  obtain ⟨hf1, hf2⟩ := f0ScoreOf_bounds cur prof h1
  obtain ⟨hs1, hs2⟩ := spectralScoreOf_bounds cur prof h2 h3 h4
  obtain ⟨hc1, hc2⟩ := chromaScoreOf_bounds cur prof
  obtain ⟨ht1, ht2⟩ := temporalScoreOf_bounds cur prof h5 h6 h7
  obtain ⟨hv1, hv2⟩ := voicingScoreOf_bounds cur prof
  unfold calculateCompositeScore calculateMultiMetricSimilarity
  dsimp only
  constructor <;> linarith

/-- An all-zero stored profile, used as a concrete input in witnesses. -/
noncomputable def zeroProfile : ProfileFeatures where
  f0_mean := ⟨0, 0, 0, 0, 0⟩
  f0_std := ⟨0, 0, 0, 0, 0⟩
  voicing_ratio := ⟨0, 0, 0, 0, 0⟩
  mfcc_mean := ⟨fun _ => 0, fun _ => 0, fun _ => 0⟩
  mfcc_std := ⟨fun _ => 0, fun _ => 0, fun _ => 0⟩
  mfcc_delta := ⟨fun _ => 0, fun _ => 0, fun _ => 0⟩
  spectral_centroid_mean := ⟨0, 0, 0, 0, 0⟩
  spectral_centroid_std := ⟨0, 0, 0, 0, 0⟩
  spectral_rolloff_mean := ⟨0, 0, 0, 0, 0⟩
  spectral_bandwidth_mean := ⟨0, 0, 0, 0, 0⟩
  chroma_mean := ⟨fun _ => 0, fun _ => 0, fun _ => 0⟩
  tonnetz_mean := ⟨fun _ => 0, fun _ => 0, fun _ => 0⟩
  zcr_mean := ⟨0, 0, 0, 0, 0⟩
  zcr_std := ⟨0, 0, 0, 0, 0⟩
  rms_mean := ⟨0, 0, 0, 0, 0⟩
  rms_std := ⟨0, 0, 0, 0, 0⟩
  tempo := ⟨0, 0, 0, 0, 0⟩
  audio_duration := ⟨0, 0, 0, 0, 0⟩
  audio_rms := ⟨0, 0, 0, 0, 0⟩

/-- Witness for C2's amended statement at concrete inputs. -/
theorem c2_composite_bounds_witness :
    (0 ≤ zeroProfile.f0_mean.std ∧ 0 ≤ zeroProfile.spectral_centroid_mean.std ∧
      0 ≤ zeroProfile.spectral_rolloff_mean.std ∧ 0 ≤ zeroProfile.spectral_bandwidth_mean.std ∧
      0 ≤ zeroProfile.zcr_mean.std ∧ 0 ≤ zeroProfile.rms_mean.std ∧ 0 ≤ zeroProfile.tempo.std) ∧
    (-(1 / 4) ≤ calculateCompositeScore (calculateMultiMetricSimilarity zeroFV zeroProfile) ∧
      calculateCompositeScore (calculateMultiMetricSimilarity zeroFV zeroProfile) ≤ 1) :=
  ⟨by norm_num [zeroProfile],
    c2_composite_bounds zeroFV zeroProfile (by norm_num [zeroProfile])⟩

/-- A live feature vector engineered to oppose the stored profile below. -/
noncomputable def advCur : FeatureVector where
  f0_mean := 1000
  f0_std := 0
  voicing_ratio := 1
  mfcc_mean := fun i => if i = 0 then 1 else 0
  mfcc_std := fun _ => 0
  mfcc_delta := fun _ => 0
  spectral_centroid_mean := 1000
  spectral_centroid_std := 0
  spectral_rolloff_mean := 1000
  spectral_bandwidth_mean := 1000
  chroma_mean := fun i => if i = 0 then 1 else 0
  tonnetz_mean := fun _ => 0
  zcr_mean := 1000
  zcr_std := 0
  rms_mean := 1000
  rms_std := 0
  tempo := 1000
  audio_duration := 1
  audio_rms := 1

/-- A stored profile whose MFCC and chroma vectors point opposite to
`advCur` and whose scalar features are far from it. -/
noncomputable def advProf : ProfileFeatures where
  f0_mean := ⟨1, 1, 0, 0, 0⟩
  f0_std := ⟨0, 0, 0, 0, 0⟩
  voicing_ratio := ⟨0, 0, 0, 0, 0⟩
  mfcc_mean := ⟨fun i => if i = 0 then -1 else 0, fun _ => 0, fun _ => 0⟩
  mfcc_std := ⟨fun _ => 0, fun _ => 0, fun _ => 0⟩
  mfcc_delta := ⟨fun _ => 0, fun _ => 0, fun _ => 0⟩
  spectral_centroid_mean := ⟨1, 1, 0, 0, 0⟩
  spectral_centroid_std := ⟨0, 0, 0, 0, 0⟩
  spectral_rolloff_mean := ⟨1, 1, 0, 0, 0⟩
  spectral_bandwidth_mean := ⟨1, 1, 0, 0, 0⟩
  chroma_mean := ⟨fun i => if i = 0 then -1 else 0, fun _ => 0, fun _ => 0⟩
  tonnetz_mean := ⟨fun _ => 0, fun _ => 0, fun _ => 0⟩
  zcr_mean := ⟨1, 1, 0, 0, 0⟩
  zcr_std := ⟨0, 0, 0, 0, 0⟩
  rms_mean := ⟨1, 1, 0, 0, 0⟩
  rms_std := ⟨0, 0, 0, 0, 0⟩
  tempo := ⟨1, 1, 0, 0, 0⟩
  audio_duration := ⟨0, 0, 0, 0, 0⟩
  audio_rms := ⟨0, 0, 0, 0, 0⟩

/-- C2 counterexample: at the concrete pair `advCur` / `advProf` the
composite score is negative, refuting the claimed lower bound 0. -/
theorem c2_counterexample :
    calculateCompositeScore (calculateMultiMetricSimilarity advCur advProf) < 0 := by
  have hsa : sumSq advCur.mfcc_mean = 1 := by
    simp [sumSq, advCur, Fin.sum_univ_succ]
  have hna : l2norm advCur.mfcc_mean = 1 := by
    unfold l2norm
    rw [hsa, Real.sqrt_one]
  have hsb : sumSq advProf.mfcc_mean.mean = 1 := by
    simp [sumSq, advProf, Fin.sum_univ_succ]
  have hnb : l2norm advProf.mfcc_mean.mean = 1 := by
    unfold l2norm
    rw [hsb, Real.sqrt_one]
  have hdot : dotv advCur.mfcc_mean advProf.mfcc_mean.mean = -1 := by
    simp [dotv, advCur, advProf, Fin.sum_univ_succ]
  have hcos : cosineDist advCur.mfcc_mean advProf.mfcc_mean.mean = 2 := by
    unfold cosineDist
    rw [hdot, hna, hnb]
    norm_num
  have heuc : euclDist advCur.mfcc_mean advProf.mfcc_mean.mean = 2 := by
    unfold euclDist
    have h4 : ∑ i, (advCur.mfcc_mean i - advProf.mfcc_mean.mean i) ^ 2 = 4 := by
      simp [advCur, advProf, Fin.sum_univ_succ, Fin.succ_ne_zero]
      norm_num
    rw [h4, show (4 : ℝ) = 2 ^ 2 by norm_num, Real.sqrt_sq (by norm_num : (0 : ℝ) ≤ 2)]
  have hmfcc : mfccScoreOf advCur advProf = ((1 - 2) + (1 - 2 / (1 + 1 + eps8))) / 2 := by
    unfold mfccScoreOf
    rw [hcos, heuc, hna, hnb]
  have hdc : dotv advCur.chroma_mean advProf.chroma_mean.mean = -1 := by
    simp [dotv, advCur, advProf, Fin.sum_univ_succ]
  have hscm : sumSq advCur.chroma_mean = 1 := by
    simp [sumSq, advCur, Fin.sum_univ_succ]
  have hsdm : sumSq advProf.chroma_mean.mean = 1 := by
    simp [sumSq, advProf, Fin.sum_univ_succ]
  have hchroma : chromaScoreOf advCur advProf = -1 := by
    unfold chromaScoreOf cosineDist
    rw [hdc]
    unfold l2norm
    rw [hscm, hsdm, Real.sqrt_one]
    norm_num
  have hf0 : f0ScoreOf advCur advProf = 0 := by
    unfold f0ScoreOf
    rw [if_pos (by norm_num [advCur, advProf])]
    have habs : |advCur.f0_mean - advProf.f0_mean.mean| = 999 := by
      rw [show advCur.f0_mean - advProf.f0_mean.mean = (999 : ℝ) by norm_num [advCur, advProf]]
      exact abs_of_pos (by norm_num)
    rw [habs]
    exact max_eq_left (by norm_num [advProf, eps6])
  have hband3 : bandScore 3 (1000 : ℝ) 1 1 = 0 := by
    unfold bandScore
    have habs : |(1000 : ℝ) - 1| = 999 := by
      rw [show (1000 : ℝ) - 1 = 999 by norm_num]
      exact abs_of_pos (by norm_num)
    rw [habs, abs_one]
    exact max_eq_left (by norm_num [eps6])
  have hband2 : bandScore 2 (1000 : ℝ) 1 1 = 0 := by
    unfold bandScore
    have habs : |(1000 : ℝ) - 1| = 999 := by
      rw [show (1000 : ℝ) - 1 = 999 by norm_num]
      exact abs_of_pos (by norm_num)
    rw [habs, abs_one]
    exact max_eq_left (by norm_num [eps6])
  have hspec : spectralScoreOf advCur advProf = 0 := by
    have hlist : spectralScores advCur advProf = [0, 0, 0] := by
      unfold spectralScores
      rw [if_pos (show advProf.spectral_centroid_mean.mean ≠ 0 by norm_num [advProf]),
        if_pos (show advProf.spectral_rolloff_mean.mean ≠ 0 by norm_num [advProf]),
        if_pos (show advProf.spectral_bandwidth_mean.mean ≠ 0 by norm_num [advProf])]
      simp [advCur, advProf, hband3]
    unfold spectralScoreOf
    rw [hlist]
    simp
  have htempo : temporalScoreOf advCur advProf = 0 := by
    have hlist : temporalScores advCur advProf = [0, 0, 0] := by
      unfold temporalScores
      rw [if_pos (show advProf.zcr_mean.mean ≠ 0 by norm_num [advProf]),
        if_pos (show advProf.rms_mean.mean ≠ 0 by norm_num [advProf]),
        if_pos (show advProf.tempo.mean ≠ 0 by norm_num [advProf])]
      simp [advCur, advProf, hband2]
    unfold temporalScoreOf
    rw [hlist]
    simp
  have hvoice : voicingScoreOf advCur advProf = 0 := by
    unfold voicingScoreOf
    rw [show advCur.voicing_ratio - advProf.voicing_ratio.mean = (1 : ℝ)
      by norm_num [advCur, advProf], abs_one]
    exact max_eq_left (by norm_num)
  unfold calculateCompositeScore calculateMultiMetricSimilarity
  dsimp only
  rw [hmfcc, hf0, hspec, hchroma, htempo, hvoice]
  norm_num [eps8]

end VoiceAuth
